import Mathlib

/-!
Verification of the upload → analyze → display workflow state machine of the
crime-scene-reconstruction UI (src/unnamed/part_000 `App`, src/types.ts).

The component's four `useState` cells are modelled as one `AppState` record.
Each event handler becomes a function on `AppState`.  The asynchronous
`handleUpload` is modelled as the ordered list of committed render states it
produces: React batches all `setState` calls issued in the same synchronous
segment into one committed state, so the handler yields exactly three
committed states (Uploading with the freshly appended references, Analyzing,
then Complete-with-result or Error).  The two opaque collaborators
(`analyzeCrimeSceneImages`, `generateAndSendReport`) and `URL.createObjectURL`
are parameters: a submission is settled against every possible outcome.
Numeric payload fields (`number` in TypeScript) are carried as `Int`; no
claim computes with them.
-/

/-- `Coordinates` from src/types.ts. -/
structure Coordinates where
  x : Int
  y : Int
  z : Int
deriving DecidableEq, Repr

/-- The closed category set of `EvidenceItem.type` in src/types.ts. -/
inductive EvidenceType where
  | biological | weapon | trace | document | person | other
deriving DecidableEq, Repr

/-- `EvidenceItem` from src/types.ts. -/
structure EvidenceItem where
  id : String
  name : String
  type : EvidenceType
  description : String
  position : Coordinates
  significance : Int
deriving DecidableEq, Repr

/-- `TimelineEvent` from src/types.ts. -/
structure TimelineEvent where
  timeOffset : String
  description : String
  confidence : Int
deriving DecidableEq, Repr

/-- The anonymous `{ theory; probability }` entry of `hypotheses` in src/types.ts. -/
structure SceneHypothesis where
  theory : String
  probability : Int
deriving DecidableEq, Repr

/-- The anonymous `{ label; value }` pairs used in `stats` in src/types.ts. -/
structure LabelValue where
  label : String
  value : Int
deriving DecidableEq, Repr

/-- The anonymous `stats` aggregate of `CrimeSceneAnalysis` in src/types.ts. -/
structure AnalysisStats where
  typeDistribution : List LabelValue
  confidenceMetrics : List LabelValue
deriving DecidableEq, Repr

/-- `CrimeSceneAnalysis` from src/types.ts (the spec's AnalysisResult). -/
structure CrimeSceneAnalysis where
  summary : String
  locationDetails : String
  evidence : List EvidenceItem
  timeline : List TimelineEvent
  hypotheses : List SceneHypothesis
  stats : AnalysisStats
  imageUrls : Option (List String)
deriving DecidableEq, Repr

/-- `AnalysisStatus` from src/types.ts. -/
inductive AnalysisStatus where
  | IDLE | UPLOADING | ANALYZING | COMPLETE | ERROR
deriving DecidableEq, Repr

/-- `UserProfile` from src/types.ts. -/
structure UserProfile where
  name : String
  email : String
  badgeId : String
deriving DecidableEq, Repr

/-- An image payload handed to `handleUpload` (a DOM `File`; only its identity
matters to the workflow, which passes it to `URL.createObjectURL` and to the
analysis collaborator). -/
structure File where
  name : String
deriving DecidableEq, Repr

/-- The opaque rejection value of the analysis collaborator. -/
structure AnalysisError where
  message : String
deriving DecidableEq, Repr

/-- The four `useState` cells of `App` in src/unnamed/part_000. -/
structure AppState where
  user : Option UserProfile
  status : AnalysisStatus
  analysisData : Option CrimeSceneAnalysis
  uploadedImages : List String
deriving DecidableEq, Repr

/-- The initial render state of `App`: all cells at their `useState` defaults. -/
def initState : AppState :=
  { user := none
    status := AnalysisStatus.IDLE
    analysisData := none
    uploadedImages := [] }

/-- `handleLogin` in src/unnamed/part_000: stores the user profile. -/
def handleLogin (s : AppState) (userInfo : UserProfile) : AppState :=
  { s with user := some userInfo }

/-- `handleLogout` in src/unnamed/part_000: clears user, result, image
references and returns the status to IDLE. -/
def handleLogout (_s : AppState) : AppState :=
  { user := none
    analysisData := none
    uploadedImages := []
    status := AnalysisStatus.IDLE }

/-- The `onReset` callback passed to `Dashboard` in src/unnamed/part_000:
clears the result and the image references and returns the status to IDLE. -/
def onReset (s : AppState) : AppState :=
  { s with analysisData := none
           uploadedImages := []
           status := AnalysisStatus.IDLE }

/-- The observable outcome of one `handleUpload` run: the committed render
states in order, and the argument passed to `analyzeCrimeSceneImages`. -/
structure UploadRun where
  trace : List AppState
  analyzeCall : List File
deriving DecidableEq, Repr

/-- `handleUpload` in src/unnamed/part_000, parameterised by
`URL.createObjectURL` and by the outcome of the `analyzeCrimeSceneImages`
collaborator.  The committed render states are, in order:
1. `setStatus(UPLOADING)` together with the batched
   `setUploadedImages(prev => [...prev, ...newImageUrls])`;
2. after the artificial delay, `setStatus(ANALYZING)`;
3. on resolution, the batched `setAnalysisData({ ...data, imageUrls:
   newImageUrls })` and `setStatus(COMPLETE)`; on rejection, `setStatus(ERROR)`
   (the delayed reversion to IDLE is a separate timer, `errorResetTimer`). -/
def handleUpload (createObjectURL : File → String)
    (outcome : Except AnalysisError CrimeSceneAnalysis)
    (s : AppState) (files : List File) : UploadRun :=
  let newImageUrls := files.map createObjectURL
  let s1 : AppState :=
    { s with status := AnalysisStatus.UPLOADING
             uploadedImages := s.uploadedImages ++ newImageUrls }
  let s2 : AppState := { s1 with status := AnalysisStatus.ANALYZING }
  match outcome with
  | Except.ok data =>
      let dataWithImages : CrimeSceneAnalysis := { data with imageUrls := some newImageUrls }
      let s3 : AppState :=
        { s2 with analysisData := some dataWithImages
                  status := AnalysisStatus.COMPLETE }
      { trace := [s1, s2, s3], analyzeCall := files }
  | Except.error _ =>
      let s3 : AppState := { s2 with status := AnalysisStatus.ERROR }
      { trace := [s1, s2, s3], analyzeCall := files }

/-- The `setTimeout(() => setStatus(AnalysisStatus.IDLE), 3000)` callback armed
on the error branch of `handleUpload`. -/
def errorResetTimer (s : AppState) : AppState :=
  { s with status := AnalysisStatus.IDLE }

/-- One recorded invocation of the `generateAndSendReport` collaborator. -/
structure DispatchCall where
  data : CrimeSceneAnalysis
  user : UserProfile
  targetEmail : String
deriving DecidableEq, Repr

/-- The user-visible `alert` raised by `handleDownloadReport`. -/
inductive Notification where
  | successAlert (email : String)
  | failureAlert
deriving DecidableEq, Repr

/-- The observable outcome of one `handleDownloadReport` run: the (unchanged)
state, the collaborator invocations, and the notification raised, if any. -/
structure DispatchRun where
  state : AppState
  calls : List DispatchCall
  notice : Option Notification
deriving DecidableEq, Repr

/-- `handleDownloadReport` in src/unnamed/part_000, parameterised by the
boolean the `generateAndSendReport` collaborator resolves with.  Guards on
`!analysisData || !user`; `email || user.email` falls back to the user's own
address when the argument is absent or the empty string (JavaScript
truthiness). -/
def handleDownloadReport (dispatchOutcome : Bool)
    (s : AppState) (email : Option String) : DispatchRun :=
  match s.analysisData, s.user with
  | some data, some u =>
      let targetEmail :=
        match email with
        | some e => if e = "" then u.email else e
        | none => u.email
      { state := s
        calls := [{ data := data, user := u, targetEmail := targetEmail }]
        notice := some (if dispatchOutcome then Notification.successAlert targetEmail
                        else Notification.failureAlert) }
  | _, _ => { state := s, calls := [], notice := none }

/-- Reachability of a committed render state of `App`, starting from the
`useState` defaults.  Each constructor is one event the rendered UI can
deliver: `Login.onLogin` only renders while no user is present; the uploader
(hence `handleUpload`) only renders while the status is not COMPLETE and a
user is present, and every committed state of the run is reached; the
error-reset timer only pends while the status is ERROR; `handleDownloadReport`
never changes the state. -/
inductive Reachable : AppState → Prop where
  | init : Reachable initState
  | login (s : AppState) (u : UserProfile) :
      Reachable s → s.user = none → Reachable (handleLogin s u)
  | logout (s : AppState) :
      Reachable s → Reachable (handleLogout s)
  | reset (s : AppState) :
      Reachable s → s.status = AnalysisStatus.COMPLETE → Reachable (onReset s)
  | upload (c : File → String) (o : Except AnalysisError CrimeSceneAnalysis)
      (s : AppState) (files : List File) (s' : AppState) :
      Reachable s → s.user ≠ none → s.status ≠ AnalysisStatus.COMPLETE →
      s' ∈ (handleUpload c o s files).trace → Reachable s'
  | errorTimer (s : AppState) :
      Reachable s → s.status = AnalysisStatus.ERROR → Reachable (errorResetTimer s)
  | dispatch (b : Bool) (s : AppState) (email : Option String) :
      Reachable s → Reachable (handleDownloadReport b s email).state

/-- A concrete authenticated user, used for concrete runs. -/
def sampleUser : UserProfile :=
  { name := "Dana Reyes", email := "dreyes@agency.example", badgeId := "B-1047" }

/-- A concrete collaborator result, used for concrete runs. -/
def sampleAnalysis : CrimeSceneAnalysis :=
  { summary := "single point of entry"
    locationDetails := "warehouse interior"
    evidence := []
    timeline := []
    hypotheses := []
    stats := { typeDistribution := [], confidenceMetrics := [] }
    imageUrls := none }

/-- A concrete `URL.createObjectURL`, used for concrete runs. -/
def blobURL : File → String := fun f => "blob:" ++ f.name

/-- A concrete image payload. -/
def fileA : File := { name := "a.jpg" }

/-- A second concrete image payload. -/
def fileB : File := { name := "b.jpg" }

/-- A concrete collaborator rejection. -/
def boom : AnalysisError := { message := "quota exceeded" }

/-- The state after logging `sampleUser` in from the initial state. -/
def loggedInState : AppState := handleLogin initState sampleUser

/-- The final committed state of a submission of `[fileA]` from
`loggedInState` whose analysis collaborator fails: status ERROR, no result,
and the preview reference for `fileA` still accumulated. -/
def errState : AppState :=
  { user := some sampleUser
    status := AnalysisStatus.ERROR
    analysisData := none
    uploadedImages := ["blob:a.jpg"] }

/-- The state after the error-reset timer fires in `errState`: status IDLE
with the preview reference still accumulated. -/
def idleLeakState : AppState := errorResetTimer errState

/-- The final committed state of a second submission, of `[fileB]` from
`idleLeakState`, whose analysis collaborator succeeds. -/
def doneState : AppState :=
  { user := some sampleUser
    status := AnalysisStatus.COMPLETE
    analysisData := some { sampleAnalysis with imageUrls := some ["blob:b.jpg"] }
    uploadedImages := ["blob:a.jpg", "blob:b.jpg"] }

theorem reachable_loggedIn : Reachable loggedInState :=
  Reachable.login initState sampleUser Reachable.init rfl

theorem reachable_errState : Reachable errState :=
  Reachable.upload blobURL (Except.error boom) loggedInState [fileA] errState
    reachable_loggedIn (by decide) (by decide) (by decide)

theorem reachable_idleLeak : Reachable idleLeakState :=
  Reachable.errorTimer errState reachable_errState rfl

theorem reachable_doneState : Reachable doneState :=
  Reachable.upload blobURL (Except.ok sampleAnalysis) idleLeakState [fileB] doneState
    reachable_idleLeak (by decide) (by decide) (by decide)

/-- Frame helper: `handleDownloadReport` never changes the component state. -/
theorem handleDownloadReport_state (b : Bool) (s : AppState) (email : Option String) :
    (handleDownloadReport b s email).state = s := by
  cases hd : s.analysisData <;> cases hu : s.user <;>
    simp [handleDownloadReport, hd, hu]

/-- Core invariant helper: in every reachable committed render state the
stored result is present exactly when the status is COMPLETE. -/
theorem reachable_result_iff_complete (s : AppState) (h : Reachable s) :
    s.analysisData ≠ none ↔ s.status = AnalysisStatus.COMPLETE := by
  induction h with
  | init => simp [initState]
  | login s u _ _ ih => simpa [handleLogin] using ih
  | logout s _ => simp [handleLogout]
  | reset s _ _ => simp [onReset]
  | upload c o s files s' _ hu hst hmem ih =>
      have hd : s.analysisData = none := by
        by_contra hne
        exact hst (ih.mp hne)
      cases o with
      | ok data =>
          simp [handleUpload] at hmem
          rcases hmem with h1 | h1 | h1 <;> subst h1 <;> simp [hd]
      | error e =>
          simp [handleUpload] at hmem
          rcases hmem with h1 | h1 | h1 <;> subst h1 <;> simp [hd]
  | errorTimer s _ hs ih =>
      have hd : s.analysisData = none := by
        by_contra hne
        simp [ih.mp hne] at hs
      simp [errorResetTimer, hd]
  | dispatch b s email _ ih =>
      simpa [handleDownloadReport_state] using ih

/-- C1: for every non-empty list of image payloads, a submission started while
the machine is Idle commits Uploading, then Analyzing, and the run terminates
with the status equal to exactly one of COMPLETE or ERROR. -/
theorem C1_submission_trace (c : File → String)
    (o : Except AnalysisError CrimeSceneAnalysis)
    (s : AppState) (files : List File)
    (_hne : files ≠ []) (_hidle : s.status = AnalysisStatus.IDLE) :
    ((handleUpload c o s files).trace.map AppState.status).take 2
        = [AnalysisStatus.UPLOADING, AnalysisStatus.ANALYZING] ∧
    Xor' (((handleUpload c o s files).trace.map AppState.status).getLast?
            = some AnalysisStatus.COMPLETE)
         (((handleUpload c o s files).trace.map AppState.status).getLast?
            = some AnalysisStatus.ERROR) := by
  cases o <;> simp [handleUpload, Xor']

/-- C1 witness: the concrete successful submission of `[fileA]` from the
logged-in idle state. -/
theorem C1_submission_trace_witness :
    [fileA] ≠ ([] : List File) ∧
    loggedInState.status = AnalysisStatus.IDLE ∧
    (((handleUpload blobURL (Except.ok sampleAnalysis) loggedInState [fileA]).trace.map
        AppState.status).take 2
        = [AnalysisStatus.UPLOADING, AnalysisStatus.ANALYZING] ∧
     Xor' (((handleUpload blobURL (Except.ok sampleAnalysis) loggedInState [fileA]).trace.map
              AppState.status).getLast? = some AnalysisStatus.COMPLETE)
          (((handleUpload blobURL (Except.ok sampleAnalysis) loggedInState [fileA]).trace.map
              AppState.status).getLast? = some AnalysisStatus.ERROR)) :=
  ⟨by decide, by decide,
   C1_submission_trace blobURL (Except.ok sampleAnalysis) loggedInState [fileA]
     (by decide) (by decide)⟩

/-- C9: logout from any state yields IDLE status, no user, no result and an
empty image-reference list. -/
theorem C9_logout_clears (s : AppState) :
    handleLogout s =
      { user := none
        status := AnalysisStatus.IDLE
        analysisData := none
        uploadedImages := [] } := rfl

/-- C5: for every input list and every collaborator behavior the submission
run terminates in a committed state whose status is COMPLETE or ERROR, and
every collaborator failure is converted into the ERROR status — no failure
escapes `handleUpload`. -/
theorem C5_failures_contained (c : File → String)
    (o : Except AnalysisError CrimeSceneAnalysis)
    (s : AppState) (files : List File) :
    (((handleUpload c o s files).trace.map AppState.status).getLast?
        = some AnalysisStatus.COMPLETE ∨
     ((handleUpload c o s files).trace.map AppState.status).getLast?
        = some AnalysisStatus.ERROR) ∧
    (∀ err : AnalysisError, o = Except.error err →
      ((handleUpload c o s files).trace.map AppState.status).getLast?
        = some AnalysisStatus.ERROR) := by
  cases o with
  | ok data => exact ⟨Or.inl (by simp [handleUpload]), fun err h => by simp at h⟩
  | error e => exact ⟨Or.inr (by simp [handleUpload]), fun err h => by simp [handleUpload]⟩

/-- C5 witness: the concrete failing submission of `[fileA]` from the
logged-in state ends with the ERROR status committed. -/
theorem C5_failures_contained_witness :
    ((handleUpload blobURL (Except.error boom) loggedInState [fileA]).trace.map
        AppState.status).getLast? = some AnalysisStatus.ERROR :=
  (C5_failures_contained blobURL (Except.error boom) loggedInState [fileA]).2 boom rfl

/-- C10: `handleUpload` performs no emptiness check: on the empty file list it
still commits Uploading then Analyzing, appends zero references, invokes the
analysis collaborator with the empty list, and terminates in COMPLETE or
ERROR, exactly as in the non-empty case. -/
theorem C10_empty_submission (c : File → String)
    (o : Except AnalysisError CrimeSceneAnalysis) (s : AppState) :
    (handleUpload c o s []).analyzeCall = [] ∧
    ((handleUpload c o s []).trace.map AppState.status).take 2
        = [AnalysisStatus.UPLOADING, AnalysisStatus.ANALYZING] ∧
    (∀ st ∈ (handleUpload c o s []).trace, st.uploadedImages = s.uploadedImages) ∧
    (((handleUpload c o s []).trace.map AppState.status).getLast?
        = some AnalysisStatus.COMPLETE ∨
     ((handleUpload c o s []).trace.map AppState.status).getLast?
        = some AnalysisStatus.ERROR) := by
  cases o with
  | ok data =>
      refine ⟨rfl, by simp [handleUpload], ?_, Or.inl (by simp [handleUpload])⟩
      intro st hmem
      simp [handleUpload] at hmem
      rcases hmem with h | h | h <;> subst h <;> rfl
  | error e =>
      refine ⟨rfl, by simp [handleUpload], ?_, Or.inr (by simp [handleUpload])⟩
      intro st hmem
      simp [handleUpload] at hmem
      rcases hmem with h | h | h <;> subst h <;> rfl

/-- C10 witness: a concrete empty-list submission from the logged-in state,
with the membership instantiated at the final committed state. -/
theorem C10_empty_submission_witness :
    (handleUpload blobURL (Except.ok sampleAnalysis) loggedInState []).analyzeCall = [] ∧
    ((handleUpload blobURL (Except.ok sampleAnalysis) loggedInState []).trace.map
        AppState.status).take 2
        = [AnalysisStatus.UPLOADING, AnalysisStatus.ANALYZING] ∧
    ((handleUpload blobURL (Except.ok sampleAnalysis) loggedInState []).trace.getLastD
        loggedInState).uploadedImages = loggedInState.uploadedImages := by
  obtain ⟨h1, h2, h3, _⟩ :=
    C10_empty_submission blobURL (Except.ok sampleAnalysis) loggedInState
  exact ⟨h1, h2, h3 _ (by decide)⟩

/-- C2 counterexample: `doneState` is a reachable committed state stored by a
successful submission, yet its result carries `imageUrls = ["blob:b.jpg"]`
while the accumulated image-reference list at store time is
`["blob:a.jpg", "blob:b.jpg"]` — the reference left over from the earlier
failed submission is missing from the stored result. -/
theorem C2_counterexample :
    Reachable doneState ∧
    doneState ∈ (handleUpload blobURL (Except.ok sampleAnalysis) idleLeakState [fileB]).trace ∧
    Option.map CrimeSceneAnalysis.imageUrls doneState.analysisData
      = some (some ["blob:b.jpg"]) ∧
    doneState.uploadedImages = ["blob:a.jpg", "blob:b.jpg"] ∧
    Option.map CrimeSceneAnalysis.imageUrls doneState.analysisData
      ≠ some (some doneState.uploadedImages) :=
  ⟨reachable_doneState, by decide, by decide, by decide, by decide⟩

/-- C2 amended: on a successful submission the stored result's `imageUrls`
equals the list of references created during that submission, in order (not
the full accumulated list, which may retain references from earlier failed
submissions). -/
theorem C2_stored_imageUrls (c : File → String) (data : CrimeSceneAnalysis)
    (s : AppState) (files : List File) :
    ((handleUpload c (Except.ok data) s files).trace.getLastD s).status
        = AnalysisStatus.COMPLETE ∧
    ((handleUpload c (Except.ok data) s files).trace.getLastD s).analysisData
        = some { data with imageUrls := some (files.map c) } := by
  constructor <;> simp [handleUpload]

/-- C3: in every reachable committed render state, the stored result is
non-null exactly when the status is COMPLETE; reachability is closed under
login, submission, reset, logout, the error-reset timer and dispatch
requests, so the biconditional is preserved by every operation. -/
theorem C3_result_iff_complete (s : AppState) (h : Reachable s) :
    s.analysisData ≠ none ↔ s.status = AnalysisStatus.COMPLETE :=
  reachable_result_iff_complete s h

/-- C3 witness: the invariant instantiated at the initial state. -/
theorem C3_result_iff_complete_witness :
    initState.analysisData ≠ none ↔ initState.status = AnalysisStatus.COMPLETE :=
  C3_result_iff_complete initState Reachable.init

/-- C4 counterexample: after the concrete failed submission, `errState` is
reachable with status ERROR and a non-empty image-reference list, and after
the error-reset timer `idleLeakState` is reachable with status IDLE and the
references still retained. -/
theorem C4_counterexample :
    Reachable errState ∧ errState.status = AnalysisStatus.ERROR ∧
    errState.uploadedImages ≠ [] ∧
    Reachable idleLeakState ∧ idleLeakState.status = AnalysisStatus.IDLE ∧
    idleLeakState.uploadedImages ≠ [] :=
  ⟨reachable_errState, by decide, by decide,
   reachable_idleLeak, by decide, by decide⟩

/-- C4 amended: image references are cleared exactly by logout and explicit
reset; a submission appends the newly created references in every committed
state of its run, and the error-reset timer leaves them untouched — so after
a failed submission they persist through ERROR and the reversion to IDLE. -/
theorem C4_reference_lifecycle :
    (∀ s : AppState,
      (handleLogout s).uploadedImages = [] ∧ (onReset s).uploadedImages = []) ∧
    (∀ s : AppState, (errorResetTimer s).uploadedImages = s.uploadedImages) ∧
    (∀ (c : File → String) (o : Except AnalysisError CrimeSceneAnalysis)
       (s : AppState) (files : List File) (st : AppState),
      st ∈ (handleUpload c o s files).trace →
        st.uploadedImages = s.uploadedImages ++ files.map c) := by
  refine ⟨fun s => ⟨rfl, rfl⟩, fun s => rfl, ?_⟩
  intro c o s files st hmem
  cases o with
  | ok data =>
      simp [handleUpload] at hmem
      rcases hmem with h | h | h <;> subst h <;> rfl
  | error e =>
      simp [handleUpload] at hmem
      rcases hmem with h | h | h <;> subst h <;> rfl

/-- C4 amended witness: the lifecycle instantiated on the concrete failed
submission and its error state. -/
theorem C4_reference_lifecycle_witness :
    (handleLogout errState).uploadedImages = [] ∧
    (onReset errState).uploadedImages = [] ∧
    (errorResetTimer errState).uploadedImages = errState.uploadedImages ∧
    errState.uploadedImages = loggedInState.uploadedImages ++ [fileA].map blobURL := by
  obtain ⟨h1, h2, h3⟩ := C4_reference_lifecycle
  exact ⟨(h1 errState).1, (h1 errState).2, h2 errState,
         h3 blobURL (Except.error boom) loggedInState [fileA] errState (by decide)⟩

/-- C6: from any reachable state that is not COMPLETE, a submission whose
collaborator fails commits ERROR as its final state, the armed timer then
reverts the status to IDLE, and no result is stored or retained at any
committed point of the path, the post-timer state included. -/
theorem C6_failure_path (c : File → String) (err : AnalysisError)
    (s : AppState) (files : List File) (hr : Reachable s)
    (hst : s.status ≠ AnalysisStatus.COMPLETE) :
    ((handleUpload c (Except.error err) s files).trace.getLastD s).status
        = AnalysisStatus.ERROR ∧
    (errorResetTimer
        ((handleUpload c (Except.error err) s files).trace.getLastD s)).status
        = AnalysisStatus.IDLE ∧
    (errorResetTimer
        ((handleUpload c (Except.error err) s files).trace.getLastD s)).analysisData
        = none ∧
    ∀ st ∈ (handleUpload c (Except.error err) s files).trace, st.analysisData = none := by
  have hd : s.analysisData = none := by
    by_contra hne
    exact hst ((reachable_result_iff_complete s hr).mp hne)
  refine ⟨by simp [handleUpload], by simp [handleUpload, errorResetTimer],
          by simp [handleUpload, errorResetTimer, hd], ?_⟩
  intro st hmem
  simp [handleUpload] at hmem
  rcases hmem with h | h | h <;> subst h <;> simp [hd]

/-- C6 witness: the concrete failing submission of `[fileA]` from the
logged-in state, with the membership instantiated at `errState`. -/
theorem C6_failure_path_witness :
    ((handleUpload blobURL (Except.error boom) loggedInState [fileA]).trace.getLastD
        loggedInState).status = AnalysisStatus.ERROR ∧
    (errorResetTimer
        ((handleUpload blobURL (Except.error boom) loggedInState [fileA]).trace.getLastD
          loggedInState)).status = AnalysisStatus.IDLE ∧
    (errorResetTimer
        ((handleUpload blobURL (Except.error boom) loggedInState [fileA]).trace.getLastD
          loggedInState)).analysisData = none ∧
    errState.analysisData = none := by
  obtain ⟨h1, h2, h3, h4⟩ :=
    C6_failure_path blobURL boom loggedInState [fileA] reachable_loggedIn (by decide)
  exact ⟨h1, h2, h3, h4 errState (by decide)⟩

/-- C7: a dispatch request in a state with no stored result or no
authenticated user returns with the state unchanged, no collaborator call and
no notification. -/
theorem C7_dispatch_noop (b : Bool) (s : AppState) (email : Option String)
    (h : s.analysisData = none ∨ s.user = none) :
    handleDownloadReport b s email = { state := s, calls := [], notice := none } := by
  rcases h with h | h
  · simp [handleDownloadReport, h]
  · cases hd : s.analysisData <;> simp [handleDownloadReport, hd, h]

/-- C7 witness: a dispatch request in the initial state. -/
theorem C7_dispatch_noop_witness :
    handleDownloadReport true initState none
      = { state := initState, calls := [], notice := none } :=
  C7_dispatch_noop true initState none (Or.inl rfl)

/-- C8: a dispatch request never changes the workflow state and calls the
collaborator at most once; when the preconditions hold and the collaborator
reports failure, exactly one call was made and the single surfaced outcome is
the failure notification — no retry. -/
theorem C8_dispatch_frame (b : Bool) (s : AppState) (email : Option String) :
    (handleDownloadReport b s email).state = s ∧
    (handleDownloadReport b s email).calls.length ≤ 1 ∧
    (s.analysisData ≠ none → s.user ≠ none → b = false →
      (handleDownloadReport b s email).calls.length = 1 ∧
      (handleDownloadReport b s email).notice = some Notification.failureAlert) := by
  refine ⟨handleDownloadReport_state b s email, ?_, ?_⟩
  · cases hd : s.analysisData <;> cases hu : s.user <;>
      simp [handleDownloadReport, hd, hu]
  · intro hdn hun hb
    subst hb
    cases hd : s.analysisData with
    | none => exact absurd hd hdn
    | some data =>
        cases hu : s.user with
        | none => exact absurd hu hun
        | some u => constructor <;> simp [handleDownloadReport, hd, hu]

/-- C8 witness: a failing dispatch request from the reachable completed state
`doneState`. -/
theorem C8_dispatch_frame_witness :
    (handleDownloadReport false doneState none).state = doneState ∧
    (handleDownloadReport false doneState none).calls.length = 1 ∧
    (handleDownloadReport false doneState none).notice
      = some Notification.failureAlert := by
  obtain ⟨h1, _, h3⟩ := C8_dispatch_frame false doneState none
  obtain ⟨h4, h5⟩ := h3 (by decide) (by decide) rfl
  exact ⟨h1, h4, h5⟩
